import Mathlib

/-!
Shallow embedding of `cryptotax_summary/crypto_summary.py`.

The program reads a delimited file of crypto disposal transactions, reconciles
heterogeneous column names against a static alias table, classifies each row as
Short-term or Long-term (from an explicit day-count column when available,
otherwise from the acquisition/disposition dates), and sums gains/losses per
bucket together with grand totals of proceeds and cost basis.

Modelling conventions:
- strings are Lean `String`s; all character processing is done by structural
  recursion over `String.data` so that every definition evaluates by `decide`;
- numeric cell values (money, day counts) are `Int` (the source uses pandas
  float64; binary floating point rounding is abstracted away; the inputs under
  study carry whole-number amounts only, and the spec's own data model declares
  the day count an integer);
- a pandas missing value (NaN) in a cell is represented by the empty string at
  the raw-table level and by `none` after numeric/date coercion;
- pandas exceptions become explicit error values (`Except`).
-/

/-! ## Character and string utilities (models of Python `str.strip`, `str.lower`,
splitting, and numeric coercion used by the source) -/

def isDigitChar (c : Char) : Bool := '0' ≤ c && c ≤ '9'

def digitVal (c : Char) : Nat := c.toNat - '0'.toNat

/-- Numeric value of a digit string (most significant digit first). -/
def natOfDigits (l : List Char) : Nat := l.foldl (fun a c => a * 10 + digitVal c) 0

/-- ASCII lower-casing, the effect of Python `str.lower()` on the ASCII header
names appearing in the alias table and in input headers. -/
def asciiLower (c : Char) : Char :=
  if 'A' ≤ c && c ≤ 'Z' then Char.ofNat (c.toNat + 32) else c

/-- Python `str.strip()`: drop leading and trailing whitespace. -/
def trimChars (l : List Char) : List Char :=
  ((l.dropWhile Char.isWhitespace).reverse.dropWhile Char.isWhitespace).reverse

/-- Normalization `column.strip().lower()` from `map_column_name`. -/
def normalizeName (s : String) : String :=
  String.mk ((trimChars s.data).map asciiLower)

/-- Split a character list at every occurrence of `c` (like Python
`str.split(c)` / the pandas tokenizer field split). -/
def splitOnChar (c : Char) : List Char → List (List Char)
  | [] => [[]]
  | x :: xs =>
    let r := splitOnChar c xs
    if x = c then [] :: r
    else
      match r with
      | [] => [[x]]
      | h :: t => (x :: h) :: t

/-- Join with a separator character; left inverse of `splitOnChar`. -/
def joinWithChar (c : Char) : List (List Char) → List Char
  | [] => []
  | [x] => x
  | x :: xs => x ++ c :: joinWithChar c xs

/-- Field split of one line of the file under delimiter `d`. -/
def splitCells (d : Char) (line : String) : List String :=
  (splitOnChar d line.data).map String.mk

/-- Model of the float coercion applied by pandas to numeric cells
(`pd.to_numeric(..., errors='coerce')` and `read_csv`'s own number parsing),
restricted to integral values: optional sign, digits, optionally a decimal
point followed by zeros; anything else (including the empty cell standing for
NaN) is missing.  Cells denoting non-integral or scientific-notation floats do
not occur in any input under study and are outside the model. -/
def parseUnsignedNum (l : List Char) : Option Int :=
  match splitOnChar '.' l with
  | [a] => if a ≠ [] && a.all isDigitChar then some (natOfDigits a) else none
  | [a, b] =>
    if (a ++ b) ≠ [] && (a ++ b).all isDigitChar && b.all (fun c => c = '0') then
      some (natOfDigits a)
    else none
  | _ => none

def parseNum (s : String) : Option Int :=
  match trimChars s.data with
  | '-' :: rest => (parseUnsignedNum rest).map (fun q => -q)
  | '+' :: rest => parseUnsignedNum rest
  | l => parseUnsignedNum l

/-- Digit characters of a natural number (fuelled, structural). -/
def natDigitsAux : Nat → Nat → List Char → List Char
  | 0, _, acc => acc
  | fuel + 1, n, acc =>
    if n < 10 then Char.ofNat (n + '0'.toNat) :: acc
    else natDigitsAux fuel (n / 10) (Char.ofNat (n % 10 + '0'.toNat) :: acc)

def natToString (n : Nat) : String := String.mk (natDigitsAux (n + 1) n [])

/-! ## Calendar arithmetic

`classify_holding_period` computes `(date_disposed.date() - date_acquired.date()).days`,
i.e. the difference of proleptic-Gregorian ordinal day numbers.  `toOrdinal`
below is Python's `datetime.date.toordinal` (0001-01-01 has ordinal 1). -/

def isLeap (y : Nat) : Bool := (y % 4 = 0 && y % 100 ≠ 0) || y % 400 = 0

def daysInMonth (y m : Nat) : Nat :=
  if m = 2 then (if isLeap y then 29 else 28)
  else if m = 4 || m = 6 || m = 9 || m = 11 then 30
  else 31

def daysBeforeYear (y : Nat) : Nat :=
  365 * (y - 1) + (y - 1) / 4 + (y - 1) / 400 - (y - 1) / 100

def daysBeforeMonth (y m : Nat) : Nat :=
  ((List.range (m - 1)).map (fun i => daysInMonth y (i + 1))).sum

def toOrdinal (y m d : Nat) : Nat := daysBeforeYear y + daysBeforeMonth y m + d

/-- Nanoseconds since the Unix epoch of midnight of a given date;
`toOrdinal 1970 1 1 = 719163`.  `pd.to_datetime(..., utc=True)` materialises a
nanosecond-resolution `Timestamp`, whose value must fit a signed 64-bit
integer (with the minimum reserved for NaT). -/
def tsNanos (y m d : Nat) : Int :=
  ((toOrdinal y m d : Int) - 719163) * 86400000000000

/-- The pandas `Timestamp` representable range: `Timestamp.min.value` is
`-2^63 + 1` (`-2^63` encodes NaT) and `Timestamp.max.value` is `2^63 - 1`.
Dates outside this range raise `OutOfBoundsDatetime`. -/
def inTimestampBounds (y m d : Nat) : Bool :=
  (-9223372036854775807 ≤ tsNanos y m d) && (tsNanos y m d ≤ 9223372036854775807)

/-- Model of `pd.to_datetime(s, format='%Y-%m-%d', utc=True)` on a scalar
string, reduced to the calendar date it denotes.  Per the strptime rules used
by pandas (`pandas._libs.tslibs.strptime`, which copies CPython `_strptime`):
`%Y` matches exactly four digits, `%m` matches one or two digits with value
1..12, `%d` matches one or two digits with value 1..31, the whole string must
be consumed, the resulting calendar date must exist (month length, leap years)
with year at least 1, and the `Timestamp` conversion must stay within the
signed 64-bit nanosecond range.  Failure (`ValueError` / `OutOfBoundsDatetime`)
is `none`. -/
def parseYMD (s : String) : Option (Nat × Nat × Nat) :=
  match splitOnChar '-' s.data with
  | [ys, ms, ds] =>
    if ys.length = 4 && ys.all isDigitChar
        && decide (1 ≤ ms.length) && decide (ms.length ≤ 2) && ms.all isDigitChar
        && decide (1 ≤ ds.length) && decide (ds.length ≤ 2) && ds.all isDigitChar then
      let y := natOfDigits ys
      let m := natOfDigits ms
      let d := natOfDigits ds
      if decide (1 ≤ y) && decide (1 ≤ m) && decide (m ≤ 12)
          && decide (1 ≤ d) && decide (d ≤ daysInMonth y m)
          && inTimestampBounds y m d then
        some (y, m, d)
      else none
    else none
  | _ => none

/-! ## Holding-period classification -/

inductive Bucket
  | ShortTerm
  | LongTerm
deriving DecidableEq

/-- Model of `classify_holding_period(date_acquired_str, date_disposed_str)`:
parse both dates with format `%Y-%m-%d`, take the whole-day difference, return
Short-term when it is `< 365` and Long-term otherwise; any exception is caught
and `None` is returned (modelled by `none`). -/
def classify_holding_period (a b : String) : Option Bucket :=
  match parseYMD a, parseYMD b with
  | some x, some y =>
    some (if (toOrdinal y.1 y.2.1 y.2.2 : Int) - (toOrdinal x.1 x.2.1 x.2.2 : Int) < 365
          then Bucket.ShortTerm else Bucket.LongTerm)
  | _, _ => none

/-- The day-count lambda of the engine:
`'Short-term' if pd.notna(days) and days < 365 else 'Long-term'`.
Note that a missing day-count yields Long-term, not an error. -/
def classifyByDays : Option Int → Bucket
  | some d => if d < 365 then Bucket.ShortTerm else Bucket.LongTerm
  | none => Bucket.LongTerm

/-- The dataset-level mode decision:
`'Holding period (Days)' in df.columns and not df['Holding period (Days)'].isna().all()`. -/
def useDayCount : Option (List (Option Int)) → Bool
  | none => false
  | some vs => !(vs.all (fun v => v.isNone))

/-! ## Aggregation engine -/

structure TaxRow where
  bucket : Option Bucket
  gain : Option Int
  proceeds : Option Int
  cost : Option Int
deriving DecidableEq

structure Summary where
  short_term_gains_losses : Int
  long_term_gains_losses : Int
  total_proceeds : Int
  total_cost_basis : Int
deriving DecidableEq

/-- pandas `Series.sum()` with its default `skipna=True`: missing values are
ignored, the empty sum is 0. -/
def sumOpt (l : List (Option Int)) : Int := (l.filterMap id).sum

/-- Model of `df.groupby('Holding period')['Gains (Losses) (USD)'].sum()` for one bucket
key, combined with the `.get(key, 0)` default: `groupby` drops rows whose key
is `None`, sums skip NaN, an absent group gives the default 0 which coincides
with the empty sum. -/
def bucketTotal (b : Bucket) (rows : List TaxRow) : Int :=
  sumOpt ((rows.filter (fun r => decide (r.bucket = some b))).map (fun r => r.gain))

/-- The whole aggregation step of `calculate_crypto_summary` on classified rows. -/
def summarize (rows : List TaxRow) : Summary :=
  { short_term_gains_losses := bucketTotal Bucket.ShortTerm rows
    long_term_gains_losses := bucketTotal Bucket.LongTerm rows
    total_proceeds := sumOpt (rows.map (fun r => r.proceeds))
    total_cost_basis := sumOpt (rows.map (fun r => r.cost)) }

/-! ## Column reconciliation

`required_columns` is the static alias dictionary of the source (insertion
order preserved, as in a Python dict).  `'Holding period (Days)'` is
deliberately absent: the source calls it "strictly required columns
(excluding 'Holding period (Days)')". -/

def required_columns : List (String × List String) :=
  [("Transaction Type", ["Transaction Type", "Trade Type", "Type"]),
   ("Transaction ID", ["Transaction ID", "Trade ID", "ID"]),
   ("Tax lot ID", ["Tax lot ID", "Lot ID", "Tax Lot"]),
   ("Asset name", ["Asset name", "Currency", "Symbol"]),
   ("Amount", ["Amount", "Quantity"]),
   ("Date Acquired", ["Date Acquired", "Acquisition Date", "Bought Date"]),
   ("Cost basis (USD)", ["Cost basis (USD)", "Cost Basis", "Purchase Price (USD)"]),
   ("Date of Disposition", ["Date of Disposition", "Disposition Date", "Sold Date"]),
   ("Proceeds (USD)", ["Proceeds (USD)", "Sale Proceeds", "Sale Price (USD)"]),
   ("Gains (Losses) (USD)", ["Gains (Losses) (USD)", "Gain/Loss (USD)", "Profit/Loss (USD)"]),
   ("Data source", ["Data source", "Source", "Exchange"])]

/-- Model of `map_column_name(column, single-field dict)` as the
source always calls it: normalize the column and compare against the
normalized aliases. -/
def matchesField (c : String) (aliases : List String) : Bool :=
  (aliases.map normalizeName).contains (normalizeName c)

/-- The inner loop of the mapping construction: the first canonical field (in
dictionary order) one raw column matches, if any. -/
def firstField (c : String) : Option String :=
  (required_columns.find? (fun p => matchesField c p.2)).map (fun p => p.1)

/-- The `column_mapping` dict: for each raw column in header order, its first matching
canonical field; non-matching (extra) columns are skipped. -/
def buildColumnMapping (hdr : List String) : List (String × String) :=
  hdr.filterMap (fun c => (firstField c).map (fun s => (c, s)))

/-- aliases of a canonical field in the static table. -/
def aliasesOf (f : String) : List String := (required_columns.lookup f).getD []

/-- One canonical field is reported missing when
`not any(std_col in column_mapping.values() or map_column_name(col, {std_col: aliases}) for col in df.columns)`
holds (note: the first disjunct does not depend on `col`, so the `any` is false
whenever the header is empty). -/
def fieldMissing (hdr : List String) (std : String) (aliases : List String) : Bool :=
  !(hdr.any (fun c =>
      ((buildColumnMapping hdr).map (fun p => p.2)).contains std || matchesField c aliases))

/-- The `missing` list accumulated over the alias dictionary in order. -/
def missingOf (hdr : List String) : List String :=
  (required_columns.filter (fun p => fieldMissing hdr p.1 p.2)).map (fun p => p.1)

/-- Model of `df.rename(columns=column_mapping)`: every raw column that has an entry in
the mapping is relabelled to its canonical field; the rest keep their name.
Two raw columns mapping to the same field both get renamed, so the renamed
header can contain duplicate labels. -/
def renameHeader (hdr : List String) : List String :=
  hdr.map (fun c => ((buildColumnMapping hdr).lookup c).getD c)

/-! ## Tabular reader

`pd.read_csv` is modelled on a file given as a list of lines:
- blank lines are skipped (`skip_blank_lines=True`), the first remaining line
  is the header;
- duplicate raw header names are de-duplicated with `.1`, `.2`, ... suffixes
  (`mangle_dupe_cols`);
- a data row with at most as many fields as the header is padded with missing
  values (empty cells standing for NaN);
- if every data row has exactly one field more than the header, the first
  field of each row is consumed as the implicit index column;
- otherwise the C tokenizer raises `ParserError`;
- a file with no non-blank lines raises `EmptyDataError`.
Quoting and escape sequences are not used by any input under study and are not
modelled. -/

inductive ReadErr
  | emptyData
  | parserError
deriving DecidableEq

structure RawTable where
  header : List String
  rows : List (List String)
deriving DecidableEq

def countOcc (s : String) (l : List String) : Nat := (l.filter (fun x => x = s)).length

def mangleHeader (hdr : List String) : List String :=
  (List.range hdr.length).map (fun i =>
    let c := hdr.getD i ""
    let k := countOcc c (hdr.take i)
    if k = 0 then c else c ++ "." ++ natToString k)

def padTo (n : Nat) (r : List String) : List String :=
  r ++ List.replicate (n - r.length) ""

def readCSV (d : Char) (lines : List String) : Except ReadErr RawTable :=
  match lines.filter (fun l => l ≠ "") with
  | [] => .error .emptyData
  | h :: rest =>
    let hdr := mangleHeader (splitCells d h)
    let rws := rest.map (splitCells d)
    if rws.all (fun r => r.length ≤ hdr.length) then
      .ok ⟨hdr, rws.map (padTo hdr.length)⟩
    else if rws.all (fun r => r.length = hdr.length + 1) then
      .ok ⟨hdr, rws.map (fun r => r.drop 1)⟩
    else .error .parserError

/-! ## Errors of `calculate_crypto_summary`

The source raises `ValueError` with distinct messages; the spec names them
`EmptyInput`, `MalformedInput`, `MissingColumns`.  `missingColumns` carries the
data interpolated into the message: the missing-field list and the full alias
dictionary (the message appends "Possible aliases include: ..." rendered from
the whole of `required_columns`).  `missingDateColumns` is the inner
`ValueError` raised when date-based classification lacks its date columns.
`duplicateColumnUnmodeled` marks renamed tables in which a money/date/day-count
column is duplicated by aliasing: there the real code falls into
pandas duplicate-label behaviour that is outside this model (non-scalar sums in
the result for proceeds/cost-basis duplicates, per-row exceptions for date
duplicates); no theorem below exercises that branch.  A duplicate of the gains
column alone is modelled (see `calcFromTable`). -/

inductive RunErr
  | emptyInput
  | malformedInput
  | missingColumns (missing : List String) (aliasListing : List (String × List String))
  | missingDateColumns
  | duplicateColumnUnmodeled
deriving DecidableEq

/-- The delimiter-retry loop: `for delimiter in [',', '\t', ';']`, catching
only `ParserError`; exhaustion (`for`/`else`) raises the "Invalid CSV format"
`ValueError`, i.e. `MalformedInput`.  An `EmptyDataError` would escape the
loop to the outer handler that produces the `EmptyInput` `ValueError`. -/
def tryLoop (lines : List String) : List Char → Except RunErr (Char × RawTable)
  | [] => .error .malformedInput
  | d :: ds =>
    match readCSV d lines with
    | .ok t => .ok (d, t)
    | .error .emptyData => .error .emptyInput
    | .error .parserError => tryLoop lines ds

/-- First read with the default delimiter (comma); on `ParserError`, the retry
loop; `EmptyDataError` becomes the `EmptyInput` `ValueError`. -/
def readWithFallback (lines : List String) : Except RunErr (Char × RawTable) :=
  match readCSV ',' lines with
  | .ok t => .ok (',', t)
  | .error .emptyData => .error .emptyInput
  | .error .parserError => tryLoop lines [',', '\t', ';']

/-! ## End-to-end pipeline -/

def buildRows : List (Option Bucket) → List (Option Int) → List (Option Int)
    → List (Option Int) → List TaxRow
  | b :: bs, g :: gs, p :: ps, c :: cs => ⟨b, g, p, c⟩ :: buildRows bs gs ps cs
  | _, _, _, _ => []

/-- Values of the first column carrying a given (renamed) label, one per data
row; `none` when no column has the label.  This is pandas `df[name]` under the
assumption that `name` is not a duplicated label (guarded in `calcFromTable`). -/
def getCol (hdr : List String) (rows : List (List String)) (name : String) :
    Option (List String) :=
  (hdr.findIdx? (fun c => c = name)).map (fun i => rows.map (fun r => r.getD i ""))

/-- Everything `calculate_crypto_summary` does after reading the table:
column reconciliation and the missing-columns check, the rename, the numeric
coercion of the day-count column, the dataset-level classification-mode
decision, per-row classification, and aggregation.

When the rename duplicates the gains column label, the source's
`df.groupby('Holding period')['Gains (Losses) (USD)'].sum().to_dict()`
produces a dict keyed by the *column name* (a two-column frame's `to_dict`),
so both `summary.get('Short-term', 0)` and `summary.get('Long-term', 0)` miss
and return 0; the grand totals are unaffected.  Duplicates of the other
consumed columns go to `duplicateColumnUnmodeled` (see `RunErr`). -/
def calcFromTable (t : RawTable) : Except RunErr Summary :=
  if missingOf t.header = [] then
    let hdr := renameHeader t.header
    if 1 < countOcc "Proceeds (USD)" hdr ∨ 1 < countOcc "Cost basis (USD)" hdr
        ∨ 1 < countOcc "Holding period (Days)" hdr
        ∨ 1 < countOcc "Date Acquired" hdr ∨ 1 < countOcc "Date of Disposition" hdr then
      .error .duplicateColumnUnmodeled
    else
      let holdingNums := (getCol hdr t.rows "Holding period (Days)").map (List.map parseNum)
      let buckets : Except RunErr (List (Option Bucket)) :=
        if useDayCount holdingNums then
          .ok ((holdingNums.getD []).map (fun v => some (classifyByDays v)))
        else
          match getCol hdr t.rows "Date Acquired", getCol hdr t.rows "Date of Disposition" with
          | some da, some dd => .ok (List.zipWith classify_holding_period da dd)
          | _, _ => .error .missingDateColumns
      match buckets with
      | .error e => .error e
      | .ok bs =>
        let gains := ((getCol hdr t.rows "Gains (Losses) (USD)").getD []).map parseNum
        let procs := ((getCol hdr t.rows "Proceeds (USD)").getD []).map parseNum
        let costs := ((getCol hdr t.rows "Cost basis (USD)").getD []).map parseNum
        let rows := buildRows bs gains procs costs
        let gainsDup := 1 < countOcc "Gains (Losses) (USD)" hdr
        .ok { short_term_gains_losses :=
                if gainsDup then 0 else bucketTotal Bucket.ShortTerm rows
              long_term_gains_losses :=
                if gainsDup then 0 else bucketTotal Bucket.LongTerm rows
              total_proceeds := sumOpt procs
              total_cost_basis := sumOpt costs }
  else .error (.missingColumns (missingOf t.header) required_columns)

/-- Model of `calculate_crypto_summary` from the file contents on (file existence and
OS-level I/O are outside the model). -/
def calculate (lines : List String) : Except RunErr Summary :=
  match readWithFallback lines with
  | .ok (_, t) => calcFromTable t
  | .error e => .error e

/-! ## Decidable equality for `Except` results (used to evaluate concrete runs) -/

instance {ε α : Type} [DecidableEq ε] [DecidableEq α] : DecidableEq (Except ε α) := fun x y =>
  match x, y with
  | .ok a, .ok b => if h : a = b then isTrue (by rw [h]) else isFalse (by simp [h])
  | .error a, .error b => if h : a = b then isTrue (by rw [h]) else isFalse (by simp [h])
  | .ok _, .error _ => isFalse (by simp)
  | .error _, .ok _ => isFalse (by simp)

/-! ## Concrete inputs under study

`hdr12` is the canonical header of the repository's own test CSV
(`tests/test_crypto_summary.py`), with the optional day-count column. -/

def hdr12 : String :=
  "Transaction Type,Transaction ID,Tax lot ID,Asset name,Amount,Date Acquired,Cost basis (USD),Date of Disposition,Proceeds (USD),Gains (Losses) (USD),Holding period (Days),Data source"

/-- The two-row scenario of the spec (also the repository's test fixture). -/
def scenarioLines : List String :=
  [hdr12,
   "Trade,1,A,BTC,1.0,2024-01-01,40000,2024-12-31,50000,10000,365,Coinbase",
   "Sell,2,B,ETH,0.5,2024-06-01,2000,2024-12-31,2500,500,183,Coinbase"]

/-- The scenario extended with a third row whose day-count cell is empty
(a missing value in day-count mode). -/
def dayModeBlankLines : List String :=
  [hdr12,
   "Trade,1,A,BTC,1.0,2024-01-01,40000,2024-12-31,50000,10000,365,Coinbase",
   "Sell,2,B,ETH,0.5,2024-06-01,2000,2024-12-31,2500,500,183,Coinbase",
   "Sell,3,C,DOGE,9,2024-06-01,80,2024-12-31,100,7,,Coinbase"]

/-- The canonical header without the optional day-count column:
the dataset is date-classified. -/
def hdr11 : String :=
  "Transaction Type,Transaction ID,Tax lot ID,Asset name,Amount,Date Acquired,Cost basis (USD),Date of Disposition,Proceeds (USD),Gains (Losses) (USD),Data source"

/-- Date-classified input whose third row has an unparseable acquisition date. -/
def badDateLines : List String :=
  [hdr11,
   "Trade,1,A,BTC,1.0,2024-01-01,40000,2024-12-31,50000,10000,Coinbase",
   "Sell,2,B,ETH,0.5,2024-06-01,2000,2024-12-31,2500,500,Coinbase",
   "Sell,3,C,DOGE,9,garbage,80,2024-12-31,100,20,Coinbase"]

/-- Date-classified input whose third row has a syntactically date-shaped but
invalid acquisition date (month 13). -/
def badMonthLines : List String :=
  [hdr11,
   "Trade,1,A,BTC,1.0,2023-01-01,40000,2024-06-01,51000,11000,Coinbase",
   "Sell,2,B,ETH,0.5,2024-06-01,2000,2024-12-31,2600,600,Coinbase",
   "Sell,3,C,DOGE,9,2024-13-01,90,2024-12-31,100,50,Coinbase"]

/-- The scenario header with an extra raw column that aliases to the same
canonical gains field (`'Gain/Loss (USD)'`). -/
def dupGainsLines : List String :=
  [hdr12 ++ ",Gain/Loss (USD)",
   "Trade,1,A,BTC,1.0,2024-01-01,40000,2024-12-31,50000,10000,365,Coinbase,999",
   "Sell,2,B,ETH,0.5,2024-06-01,2000,2024-12-31,2500,500,183,Coinbase,999"]

def dupGainsHeader : List String := splitCells ',' (hdr12 ++ ",Gain/Loss (USD)")

/-- A tab-separated two-line file: splitting on comma yields a single-column
table for every line, which pandas accepts without a `ParserError`. -/
def tabLines : List String := ["a\tb", "1\t2"]

/-- A file on which every candidate delimiter produces a row wider than the
header, so every read raises `ParserError`. -/
def allFailLines : List String := ["a", "b,c", "d\te", "f;g"]

def removeIdx (i : Nat) (l : List String) : List String := l.take i ++ l.drop (i + 1)

def joinCells (l : List String) : String :=
  String.mk (joinWithChar ',' (l.map String.data))

/-- The valid header with its `i`-th column removed, as a one-line file. -/
def linesWithout (i : Nat) : List String := [joinCells (removeIdx i (splitCells ',' hdr12))]

/-! ## Claim-side definitions (formalizing the spec's words, for comparison
with the behaviour derived from the source) -/

/-- Formalizes the spec's words for claim C8: a delimiter is acceptable when it
"yields a table with more than one column and a consistent column count across
rows"; the claim-side choice is the first acceptable delimiter among comma,
tab, semicolon. -/
def specTableOk (d : Char) (lines : List String) : Bool :=
  match lines.filter (fun l => l ≠ "") with
  | [] => false
  | h :: rest =>
    let n := (splitCells d h).length
    decide (1 < n) && rest.all (fun l => (splitCells d l).length = n)

def specDelimChoice (lines : List String) : Option Char :=
  [',', '\t', ';'].find? (fun d => specTableOk d lines)

/-- Predicate that `readCSV` succeeds (the code's acceptance criterion for a delimiter). -/
def parsesWith (d : Char) (lines : List String) : Bool :=
  match readCSV d lines with
  | .ok _ => true
  | .error _ => false

/-- Formalizes the spec's words for claim C10: a string "in ISO 'YYYY-MM-DD'
format", i.e. four year digits, zero-padded two-digit month and day, denoting
a valid calendar date. -/
def isStrictISO (s : String) : Bool :=
  match s.data with
  | [y1, y2, y3, y4, '-', m1, m2, '-', d1, d2] =>
    ([y1, y2, y3, y4, m1, m2, d1, d2].all isDigitChar)
      && (let y := natOfDigits [y1, y2, y3, y4]
          let m := natOfDigits [m1, m2]
          let d := natOfDigits [d1, d2]
          decide (1 ≤ y) && decide (1 ≤ m) && decide (m ≤ 12)
            && decide (1 ≤ d) && decide (d ≤ daysInMonth y m))
  | _ => false

/-- Formalizes the spec's words for claim C7: a first-wins tie-break, in which
a raw column is mapped to a canonical field only when no earlier raw column
already claimed that field. -/
def firstWinsAux : List String → List String → List (String × String)
  | [], _ => []
  | c :: cs, used =>
    match firstField c with
    | some f =>
      if used.contains f then firstWinsAux cs used
      else (c, f) :: firstWinsAux cs (f :: used)
    | none => firstWinsAux cs used

def firstWinsMapping (hdr : List String) : List (String × String) := firstWinsAux hdr []

def firstWinsRename (hdr : List String) : List String :=
  hdr.map (fun c => ((firstWinsMapping hdr).lookup c).getD c)

/-! ## Helper lemmas -/

theorem sumOpt_nil : sumOpt [] = 0 := rfl

theorem sumOpt_cons (o : Option Int) (l : List (Option Int)) :
    sumOpt (o :: l) = o.getD 0 + sumOpt l := by
  cases o <;> simp [sumOpt, List.filterMap_cons]

theorem sumOpt_append (a b : List (Option Int)) :
    sumOpt (a ++ b) = sumOpt a + sumOpt b := by
  simp [sumOpt, List.filterMap_append]

theorem bucketTotal_nil (b : Bucket) : bucketTotal b [] = 0 := rfl

theorem bucketTotal_cons (b : Bucket) (r : TaxRow) (rows : List TaxRow) :
    bucketTotal b (r :: rows)
      = (if r.bucket = some b then r.gain.getD 0 else 0) + bucketTotal b rows := by
  by_cases h : r.bucket = some b
  · simp [bucketTotal, List.filter_cons, h, sumOpt_cons]
  · simp [bucketTotal, List.filter_cons, h]

/-! ## Claim C1 -/

/-- Claim C1: for every row classified by an explicit day-count, the row is
Short-term iff the day-count is strictly below 365 (so exactly 365 days is
Long-term and 364 days is Short-term), and the same strict boundary governs
date-based classification by the whole-day difference of the disposition and
acquisition dates. -/
theorem c1_strict_365_boundary :
    (∀ d : Int, classifyByDays (some d) = Bucket.ShortTerm ↔ d < 365)
    ∧ classifyByDays (some 365) = Bucket.LongTerm
    ∧ classifyByDays (some 364) = Bucket.ShortTerm
    ∧ (∀ (a b : String) (x y : Nat × Nat × Nat),
        parseYMD a = some x → parseYMD b = some y →
        (classify_holding_period a b = some Bucket.ShortTerm ↔
          (toOrdinal y.1 y.2.1 y.2.2 : Int) - (toOrdinal x.1 x.2.1 x.2.2 : Int) < 365)
        ∧ (classify_holding_period a b = some Bucket.LongTerm ↔
          ¬ (toOrdinal y.1 y.2.1 y.2.2 : Int) - (toOrdinal x.1 x.2.1 x.2.2 : Int) < 365)) := by
  refine ⟨?_, by decide, by decide, ?_⟩
  · intro d
    by_cases h : d < 365 <;> simp [classifyByDays, h]
  · intro a b x y ha hb
    unfold classify_holding_period
    rw [ha, hb]
    by_cases h : (toOrdinal y.1 y.2.1 y.2.2 : Int) - (toOrdinal x.1 x.2.1 x.2.2 : Int) < 365
      <;> simp [h]

/-- Witness for C1: the 364/365-day boundary on the date side — 2024-01-01 to
2024-12-30 is 364 whole days (Short-term) and 2024-01-01 to 2024-12-31 is
exactly 365 whole days (Long-term), exercising the strict boundary itself. -/
theorem c1_strict_365_boundary_witness :
    (parseYMD "2024-01-01" = some (2024, 1, 1)
      ∧ parseYMD "2024-12-30" = some (2024, 12, 30)
      ∧ parseYMD "2024-12-31" = some (2024, 12, 31))
    ∧ classify_holding_period "2024-01-01" "2024-12-30" = some Bucket.ShortTerm
    ∧ classify_holding_period "2024-01-01" "2024-12-31" = some Bucket.LongTerm := by
  refine ⟨⟨by decide, by decide, by decide⟩, ?_, ?_⟩
  · exact (c1_strict_365_boundary.2.2.2 "2024-01-01" "2024-12-30"
      (2024, 1, 1) (2024, 12, 30) (by decide) (by decide)).1.mpr (by decide)
  · exact (c1_strict_365_boundary.2.2.2 "2024-01-01" "2024-12-31"
      (2024, 1, 1) (2024, 12, 31) (by decide) (by decide)).2.mpr (by decide)

/-! ## Claim C2 -/

/-- Claim C2: for fully classified rows the two bucket totals partition the sum
of all gains, a bucket with no rows contributes exactly 0, the proceeds and
cost-basis totals range over all rows regardless of bucket, and the concrete
two-row scenario yields short 500, long 10000, proceeds 52500, cost 42000
(run end-to-end through `calculate`). -/
theorem c2_aggregation :
    (∀ rows : List TaxRow, (∀ r ∈ rows, r.bucket ≠ none) →
      (summarize rows).short_term_gains_losses + (summarize rows).long_term_gains_losses
        = sumOpt (rows.map (fun r => r.gain)))
    ∧ (∀ (rows : List TaxRow) (b : Bucket),
        rows.filter (fun r => decide (r.bucket = some b)) = [] → bucketTotal b rows = 0)
    ∧ (∀ rows : List TaxRow,
        (summarize rows).total_proceeds = sumOpt (rows.map (fun r => r.proceeds))
        ∧ (summarize rows).total_cost_basis = sumOpt (rows.map (fun r => r.cost)))
    ∧ calculate scenarioLines = .ok ⟨500, 10000, 52500, 42000⟩ := by
  refine ⟨?_, ?_, fun rows => ⟨rfl, rfl⟩, by decide⟩
  · intro rows h
    induction rows with
    | nil => simp [summarize, bucketTotal_nil, sumOpt_nil]
    | cons r rs ih =>
      have hr : r.bucket ≠ none := h r (List.mem_cons_self r rs)
      have hrs := ih (fun q hq => h q (List.mem_cons_of_mem r hq))
      simp only [summarize] at hrs ⊢
      rw [List.map_cons, sumOpt_cons, bucketTotal_cons, bucketTotal_cons]
      cases hb : r.bucket with
      | none => exact absurd hb hr
      | some b =>
        cases b <;> simp [hb] <;> omega
  · intro rows b h
    simp [bucketTotal, h, sumOpt_nil]

/-- Witness for C2: the partition identity instantiated on two concrete
classified rows. -/
theorem c2_aggregation_witness :
    ((∀ r ∈ ([⟨some Bucket.ShortTerm, some 5, some 10, some 4⟩,
               ⟨some Bucket.LongTerm, some 7, some 20, some 6⟩] : List TaxRow), r.bucket ≠ none))
    ∧ (summarize [⟨some Bucket.ShortTerm, some 5, some 10, some 4⟩,
                  ⟨some Bucket.LongTerm, some 7, some 20, some 6⟩]).short_term_gains_losses
        + (summarize [⟨some Bucket.ShortTerm, some 5, some 10, some 4⟩,
                      ⟨some Bucket.LongTerm, some 7, some 20, some 6⟩]).long_term_gains_losses
        = sumOpt (([⟨some Bucket.ShortTerm, some 5, some 10, some 4⟩,
                    ⟨some Bucket.LongTerm, some 7, some 20, some 6⟩] : List TaxRow).map (fun r => r.gain)) :=
  ⟨by decide, c2_aggregation.1 _ (by decide)⟩

/-! ## Claim C3 -/

/-- Counterexample for C3: in day-count mode (the day-count column exists and
has non-missing values) a third row whose day-count cell is empty is *not* an
error: the run succeeds and that row's gain of 7 lands in the Long-term bucket
(10007 instead of 10000). -/
theorem c3_counterexample_missing_daycount_classified :
    calculate dayModeBlankLines = .ok ⟨500, 10007, 52600, 42080⟩
    ∧ classifyByDays none = Bucket.LongTerm := by
  exact ⟨by decide, rfl⟩

/-- Claim C3 as amended: the classification mode is decided once per dataset —
day-count mode iff the day-count column exists and has at least one non-missing
value — but a row lacking the dataset-chosen input is not an error: in
day-count mode a missing day-count classifies the row Long-term, and in date
mode a missing date cell leaves the row unclassified (`none`). -/
theorem c3_mode_decision_amended :
    (∀ col : Option (List (Option Int)),
      useDayCount col = true ↔ ∃ vs, col = some vs ∧ ∃ v ∈ vs, v ≠ none)
    ∧ classifyByDays none = Bucket.LongTerm
    ∧ (∀ b : String, classify_holding_period "" b = none)
    ∧ (∀ a : String, classify_holding_period a "" = none) := by
  refine ⟨?_, rfl, ?_, ?_⟩
  · intro col
    cases col with
    | none => simp [useDayCount]
    | some vs =>
      simp only [useDayCount, Bool.not_eq_true', Option.some.injEq]
      constructor
      · intro h
        refine ⟨vs, rfl, ?_⟩
        by_contra hc
        push_neg at hc
        have hall : vs.all (fun v => v.isNone) = true := by
          rw [List.all_eq_true]
          intro v hv
          rw [Option.isNone_iff_eq_none]
          exact hc v hv
        rw [hall] at h
        cases h
      · rintro ⟨vs', hv, v, hmem, hne⟩
        cases hv
        rw [List.all_eq_false]
        exact ⟨v, hmem, fun hn => hne (Option.isNone_iff_eq_none.mp hn)⟩
  · intro b
    unfold classify_holding_period
    rw [show parseYMD "" = none from rfl]
  · intro a
    unfold classify_holding_period
    rw [show parseYMD "" = none from rfl]
    cases h : parseYMD a <;> simp

/-- Witness for C3: the mode decision evaluated on a concrete one-value column,
and the concrete classification of a missing day-count. -/
theorem c3_mode_decision_amended_witness :
    useDayCount (some [none, some 183]) = true
    ∧ classify_holding_period "" "2024-12-31" = none :=
  ⟨(c3_mode_decision_amended.1 (some [none, some 183])).mpr
      ⟨[none, some 183], rfl, some 183, by decide, by decide⟩,
    c3_mode_decision_amended.2.2.1 "2024-12-31"⟩

/-! ## Claim C4 -/

/-- Counterexample for C4: in a date-classified dataset, a row with an
unparseable acquisition date produces no per-row error: the run succeeds, the
row's gain of 20 is silently absent from both bucket totals (500 + 10000),
while its proceeds and cost basis do enter the grand totals. -/
theorem c4_counterexample_silent_drop :
    calculate badDateLines = .ok ⟨500, 10000, 52600, 42080⟩
    ∧ classify_holding_period "garbage" "2024-12-31" = none
    ∧ ((500 : Int) + 10000 ≠ 10000 + 500 + 20) := by
  exact ⟨by decide, by decide, by decide⟩

/-- Claim C4 as amended: a date-parse failure on a row being date-classified
does not surface as an error and is not coerced into a bucket; the row is left
unclassified (`None`), so it is silently dropped from bucket aggregation while
the run still returns a summary. -/
theorem c4_amended_unclassified_not_error :
    (∀ a b : String, parseYMD a = none → classify_holding_period a b = none)
    ∧ (∀ a b : String, parseYMD b = none → classify_holding_period a b = none) := by
  constructor
  · intro a b h
    cases h2 : parseYMD b <;> simp [classify_holding_period, h, h2]
  · intro a b h
    cases h2 : parseYMD a <;> simp [classify_holding_period, h, h2]

/-- Witness for C4: the unparseable date of the counterexample run. -/
theorem c4_amended_witness :
    parseYMD "garbage" = none
    ∧ classify_holding_period "garbage" "2024-06-01" = none :=
  ⟨by decide, c4_amended_unclassified_not_error.1 "garbage" "2024-06-01" (by decide)⟩

/-! ## Claim C5 -/

/-- Claim C5 evaluated on the code: a file holding just a valid header (either
with or without the optional day-count column) does *not* fail with the
EmptyInput error — the run returns the all-zero summary.  The EmptyInput error
(pandas `EmptyDataError` mapped to the "empty or no data after the header"
`ValueError`) fires only when the file has no non-blank lines at all. -/
theorem c5_header_only_returns_zero_summary :
    calculate [hdr12] = .ok ⟨0, 0, 0, 0⟩
    ∧ calculate [hdr11] = .ok ⟨0, 0, 0, 0⟩
    ∧ calculate [] = .error .emptyInput
    ∧ calculate ["", ""] = .error .emptyInput := by
  exact ⟨by decide, by decide, by decide, by decide⟩

/-! ## Claim C9 -/

/-- Claim C9: a row that resolved to no bucket (`None` holding period) keeps
its proceeds and cost basis inside the grand totals but contributes to neither
bucket total; concretely, the date-classified run whose third row has the
invalid acquisition date `2024-13-01` returns a summary whose bucket totals
(600, 11000) omit
that row's gain of 50 while the grand totals (53700, 42090) include its
proceeds of 100 and cost of 90. -/
theorem c9_unclassified_row_totals :
    (∀ (pre post : List TaxRow) (r : TaxRow), r.bucket = none →
      (∀ b, bucketTotal b (pre ++ r :: post) = bucketTotal b (pre ++ post))
      ∧ (summarize (pre ++ r :: post)).total_proceeds
          = (summarize (pre ++ post)).total_proceeds + r.proceeds.getD 0
      ∧ (summarize (pre ++ r :: post)).total_cost_basis
          = (summarize (pre ++ post)).total_cost_basis + r.cost.getD 0)
    ∧ calculate badMonthLines = .ok ⟨600, 11000, 53700, 42090⟩ := by
  refine ⟨?_, by decide⟩
  intro pre post r h
  refine ⟨fun b => ?_, ?_, ?_⟩
  · simp [bucketTotal, List.filter_append, List.filter_cons, h]
  · simp only [summarize, List.map_append, List.map_cons, sumOpt_append, sumOpt_cons]
    omega
  · simp only [summarize, List.map_append, List.map_cons, sumOpt_append, sumOpt_cons]
    omega

/-- Witness for C9: an unclassified row between two classified ones. -/
theorem c9_unclassified_row_totals_witness :
    (⟨none, some 20, some 100, some 80⟩ : TaxRow).bucket = none
    ∧ bucketTotal Bucket.ShortTerm
        ([⟨some Bucket.ShortTerm, some 5, some 10, some 4⟩]
          ++ (⟨none, some 20, some 100, some 80⟩ : TaxRow)
            :: [⟨some Bucket.LongTerm, some 7, some 20, some 6⟩])
      = bucketTotal Bucket.ShortTerm
        ([⟨some Bucket.ShortTerm, some 5, some 10, some 4⟩]
          ++ [⟨some Bucket.LongTerm, some 7, some 20, some 6⟩])
    ∧ (summarize ([⟨some Bucket.ShortTerm, some 5, some 10, some 4⟩]
          ++ (⟨none, some 20, some 100, some 80⟩ : TaxRow)
            :: [⟨some Bucket.LongTerm, some 7, some 20, some 6⟩])).total_proceeds
      = (summarize ([⟨some Bucket.ShortTerm, some 5, some 10, some 4⟩]
          ++ [⟨some Bucket.LongTerm, some 7, some 20, some 6⟩])).total_proceeds
        + (⟨none, some 20, some 100, some 80⟩ : TaxRow).proceeds.getD 0 :=
  ⟨rfl,
    (c9_unclassified_row_totals.1 [⟨some Bucket.ShortTerm, some 5, some 10, some 4⟩]
      [⟨some Bucket.LongTerm, some 7, some 20, some 6⟩]
      ⟨none, some 20, some 100, some 80⟩ rfl).1 Bucket.ShortTerm,
    (c9_unclassified_row_totals.1 [⟨some Bucket.ShortTerm, some 5, some 10, some 4⟩]
      [⟨some Bucket.LongTerm, some 7, some 20, some 6⟩]
      ⟨none, some 20, some 100, some 80⟩ rfl).2.1⟩

/-! ## Claim C6 -/

/-- The static alias table has pairwise-distinct canonical names, so looking a
member pair's key up returns its alias list. -/
theorem required_lookup : ∀ p ∈ required_columns, required_columns.lookup p.1 = some p.2 := by
  decide

/-- Claim C6: whenever at least one required canonical field matches no raw
column, the run fails with the MissingColumns error, whose payload lists
exactly the unmatched fields (each genuinely having zero matching raw columns)
together with the full alias table, which contains each missing field paired
with its known aliases; concretely, removing any single required column from
the valid header makes the run fail naming precisely that field. -/
theorem c6_missing_columns :
    (∀ t : RawTable, missingOf t.header ≠ [] →
      calcFromTable t = .error (.missingColumns (missingOf t.header) required_columns))
    ∧ (∀ (hdr : List String) (f : String), f ∈ missingOf hdr →
        (∀ c ∈ hdr, matchesField c (aliasesOf f) = false)
        ∧ (f, aliasesOf f) ∈ required_columns)
    ∧ (calculate (linesWithout 0) = .error (.missingColumns ["Transaction Type"] required_columns)
      ∧ calculate (linesWithout 1) = .error (.missingColumns ["Transaction ID"] required_columns)
      ∧ calculate (linesWithout 2) = .error (.missingColumns ["Tax lot ID"] required_columns)
      ∧ calculate (linesWithout 3) = .error (.missingColumns ["Asset name"] required_columns)
      ∧ calculate (linesWithout 4) = .error (.missingColumns ["Amount"] required_columns)
      ∧ calculate (linesWithout 5) = .error (.missingColumns ["Date Acquired"] required_columns)
      ∧ calculate (linesWithout 6) = .error (.missingColumns ["Cost basis (USD)"] required_columns)
      ∧ calculate (linesWithout 7) = .error (.missingColumns ["Date of Disposition"] required_columns)
      ∧ calculate (linesWithout 8) = .error (.missingColumns ["Proceeds (USD)"] required_columns)
      ∧ calculate (linesWithout 9) = .error (.missingColumns ["Gains (Losses) (USD)"] required_columns)
      ∧ calculate (linesWithout 11) = .error (.missingColumns ["Data source"] required_columns)) := by
  refine ⟨?_, ?_, by decide⟩
  · intro t h
    unfold calcFromTable
    rw [if_neg h]
  · intro hdr f hf
    rcases List.mem_map.mp hf with ⟨p, hp, rfl⟩
    rcases List.mem_filter.mp hp with ⟨hpmem, hPmiss⟩
    have hany : hdr.any (fun c =>
        ((buildColumnMapping hdr).map (fun q => q.2)).contains p.1 || matchesField c p.2)
          = false := by
      unfold fieldMissing at hPmiss
      simpa using hPmiss
    rw [List.any_eq_false] at hany
    have halias : aliasesOf p.1 = p.2 := by
      unfold aliasesOf
      rw [required_lookup p hpmem]
      rfl
    constructor
    · intro c hc
      have h1 := hany c hc
      rw [halias]
      cases hm : matchesField c p.2
      · rfl
      · exact absurd (by rw [hm]; simp) h1
    · rw [halias, Prod.mk.eta]
      exact hpmem

/-- Witness for C6: a header with a single unrecognized column is missing every
required field, and the table-level stage fails with the MissingColumns error. -/
theorem c6_missing_columns_witness :
    missingOf ["foo"] ≠ []
    ∧ calcFromTable ⟨["foo"], []⟩
        = .error (.missingColumns (missingOf ["foo"]) required_columns) :=
  ⟨by decide, c6_missing_columns.1 ⟨["foo"], []⟩ (by decide)⟩

/-! ## Claim C7 -/

theorem buildColumnMapping_cons (x : String) (xs : List String) :
    buildColumnMapping (x :: xs)
      = match firstField x with
        | some s => (x, s) :: buildColumnMapping xs
        | none => buildColumnMapping xs := by
  unfold buildColumnMapping
  rw [List.filterMap_cons]
  cases firstField x <;> rfl

/-- A raw column the alias table does not recognize has no entry in the
mapping. -/
theorem lookup_bcm_of_none (c : String) (h : firstField c = none) :
    ∀ l : List String, (buildColumnMapping l).lookup c = none := by
  intro l
  induction l with
  | nil => rfl
  | cons x xs ih =>
    rw [buildColumnMapping_cons]
    cases hx : firstField x with
    | none => exact ih
    | some s =>
      have hne : (c == x) = false := by
        rw [beq_eq_false_iff_ne]
        intro he
        rw [he, hx] at h
        cases h
      rw [List.lookup_cons, hne]
      exact ih

/-- For a column present in the header, the mapping entry is exactly its first
matching canonical field. -/
theorem lookup_bcm (hdr : List String) (c : String) (hc : c ∈ hdr) :
    (buildColumnMapping hdr).lookup c = firstField c := by
  induction hdr with
  | nil => cases hc
  | cons x xs ih =>
    rw [buildColumnMapping_cons]
    cases hx : firstField x with
    | none =>
      rcases List.mem_cons.mp hc with rfl | hmem
      · rw [lookup_bcm_of_none c hx xs, hx]
      · exact ih hmem
    | some s =>
      by_cases he : c = x
      · subst he
        rw [List.lookup_cons, hx]
        simp
      · have hne : (c == x) = false := beq_eq_false_iff_ne.mpr he
        rw [List.lookup_cons, hne]
        rcases List.mem_cons.mp hc with rfl | hmem
        · exact absurd rfl he
        · exact ih hmem

/-- Counterexample for C7: an extra raw column `'Gain/Loss (USD)'` aliasing the
canonical gains field is not resolved by a first-wins tie-break: the run does
not reproduce the winning (first) column's summary — both bucket totals
collapse to 0 (the duplicated gains column makes the grouped sum a two-column
frame whose dict is keyed by column name, so the bucket lookups miss), while
the single-column input yields 500/10000. -/
theorem c7_counterexample_no_first_wins :
    calculate dupGainsLines = .ok ⟨0, 0, 52500, 42000⟩
    ∧ calculate scenarioLines = .ok ⟨500, 10000, 52500, 42000⟩
    ∧ (Summary.mk 0 0 52500 42000 ≠ Summary.mk 500 10000 52500 42000) := by
  exact ⟨by decide, by decide, by decide⟩

/-- Claim C7 as amended: when two raw columns map to the same canonical field
there is no tie-break at all — the rename relabels *every* matching raw column
to its canonical field (each header cell independently becomes its first
matching field), so the renamed table keeps both columns (the canonical gains
label occurs twice), and this differs from the first-wins rename the spec
describes. -/
theorem c7_amended_rename_keeps_duplicates :
    (∀ hdr : List String, renameHeader hdr = hdr.map (fun c => (firstField c).getD c))
    ∧ countOcc "Gains (Losses) (USD)" (renameHeader dupGainsHeader) = 2
    ∧ firstWinsRename dupGainsHeader ≠ renameHeader dupGainsHeader := by
  refine ⟨?_, by decide, by decide⟩
  intro hdr
  unfold renameHeader
  apply List.map_congr_left
  intro c hc
  rw [lookup_bcm hdr c hc]

/-! ## Claim C8 -/

/-- pandas raises `EmptyDataError` exactly when the file has no non-blank
lines, independently of the delimiter. -/
theorem readCSV_emptyData_iff (d : Char) (lines : List String) :
    readCSV d lines = .error .emptyData ↔ lines.filter (fun l => l ≠ "") = [] := by
  unfold readCSV
  cases h : lines.filter (fun l => l ≠ "") with
  | nil => simp
  | cons x xs =>
    dsimp only
    split_ifs <;> simp

/-- Counterexample for C8: on a tab-separated file, comma-splitting gives a
well-formed single-column table, so the code accepts the comma even though the
claim's delimiter rule ("more than one column and a consistent column count")
selects the tab; and a file failing all three delimiters is MalformedInput. -/
theorem c8_counterexample_single_column_accepted :
    readWithFallback tabLines = .ok (',', ⟨["a\tb"], [["1\t2"]]⟩)
    ∧ specDelimChoice tabLines = some '\t'
    ∧ calculate allFailLines = .error .malformedInput
    ∧ (',' : Char) ≠ '\t' := by
  exact ⟨by decide, by decide, by decide, by decide⟩

/-- Claim C8 as amended: decoding is first attempted with comma; on a parse
failure the loop retries comma, tab, semicolon in that order and uses the
first delimiter whose read simply *succeeds* (no ParserError) — with no
requirement of more than one column; MalformedInput is raised exactly when the
input has content and every candidate delimiter's read raises ParserError. -/
theorem c8_amended_first_parsing_delimiter :
    (∀ (lines : List String) (d : Char) (t : RawTable),
      readWithFallback lines = .ok (d, t) →
        [',', '\t', ';'].find? (fun e => parsesWith e lines) = some d
        ∧ readCSV d lines = .ok t)
    ∧ (∀ lines : List String,
        readWithFallback lines = .error .malformedInput ↔
          (lines.filter (fun l => l ≠ "") ≠ []
            ∧ ∀ d ∈ ([',', '\t', ';'] : List Char),
                readCSV d lines = .error .parserError)) := by
  constructor
  · intro lines d t h
    unfold readWithFallback at h
    cases h1 : readCSV ',' lines with
    | ok t1 =>
      rw [h1] at h
      injection h with h
      injection h with hd ht
      subst hd
      subst ht
      refine ⟨?_, h1⟩
      simp [List.find?, parsesWith, h1]
    | error e1 =>
      cases e1 with
      | emptyData => rw [h1] at h; cases h
      | parserError =>
        rw [h1] at h
        dsimp only at h
        unfold tryLoop at h
        rw [h1] at h
        dsimp only at h
        unfold tryLoop at h
        cases h2 : readCSV '\t' lines with
        | ok t2 =>
          rw [h2] at h
          injection h with h
          injection h with hd ht
          subst hd
          subst ht
          refine ⟨?_, h2⟩
          simp [List.find?, parsesWith, h1, h2]
        | error e2 =>
          cases e2 with
          | emptyData => rw [h2] at h; cases h
          | parserError =>
            rw [h2] at h
            dsimp only at h
            unfold tryLoop at h
            cases h3 : readCSV ';' lines with
            | ok t3 =>
              rw [h3] at h
              injection h with h
              injection h with hd ht
              subst hd
              subst ht
              refine ⟨?_, h3⟩
              simp [List.find?, parsesWith, h1, h2, h3]
            | error e3 =>
              cases e3 with
              | emptyData => rw [h3] at h; cases h
              | parserError => rw [h3] at h; cases h
  · intro lines
    constructor
    · intro h
      unfold readWithFallback at h
      cases h1 : readCSV ',' lines with
      | ok t1 => rw [h1] at h; cases h
      | error e1 =>
        cases e1 with
        | emptyData => rw [h1] at h; simp at h
        | parserError =>
          rw [h1] at h
          dsimp only at h
          unfold tryLoop at h
          rw [h1] at h
          dsimp only at h
          unfold tryLoop at h
          cases h2 : readCSV '\t' lines with
          | ok t2 => rw [h2] at h; cases h
          | error e2 =>
            cases e2 with
            | emptyData => rw [h2] at h; simp at h
            | parserError =>
              rw [h2] at h
              dsimp only at h
              unfold tryLoop at h
              cases h3 : readCSV ';' lines with
              | ok t3 => rw [h3] at h; cases h
              | error e3 =>
                cases e3 with
                | emptyData => rw [h3] at h; simp at h
                | parserError =>
                  refine ⟨?_, ?_⟩
                  · intro hempty
                    rw [(readCSV_emptyData_iff ',' lines).mpr hempty] at h1
                    cases h1
                  · intro d hd
                    simp only [List.mem_cons, List.not_mem_nil, or_false] at hd
                    rcases hd with rfl | rfl | rfl
                    · exact h1
                    · exact h2
                    · exact h3
    · rintro ⟨hne, hall⟩
      have h1 := hall ',' (by simp)
      have h2 := hall '\t' (by simp)
      have h3 := hall ';' (by simp)
      simp [readWithFallback, tryLoop, h1, h2, h3]

/-- Witness for C8: the tab-separated file, where the first-success rule picks
the comma and returns the one-column table. -/
theorem c8_amended_first_parsing_delimiter_witness :
    readWithFallback tabLines = .ok (',', ⟨["a\tb"], [["1\t2"]]⟩)
    ∧ [',', '\t', ';'].find? (fun e => parsesWith e tabLines) = some ','
    ∧ readCSV ',' tabLines = .ok ⟨["a\tb"], [["1\t2"]]⟩ :=
  ⟨by decide,
    (c8_amended_first_parsing_delimiter.1 tabLines ',' ⟨["a\tb"], [["1\t2"]]⟩ (by decide)).1,
    (c8_amended_first_parsing_delimiter.1 tabLines ',' ⟨["a\tb"], [["1\t2"]]⟩ (by decide)).2⟩

/-! ## Claim C10 -/

theorem splitOnChar_ne_nil (c : Char) (l : List Char) : splitOnChar c l ≠ [] := by
  induction l with
  | nil => simp [splitOnChar]
  | cons x xs ih =>
    unfold splitOnChar
    dsimp only
    by_cases h : x = c
    · rw [if_pos h]
      simp
    · rw [if_neg h]
      cases hr : splitOnChar c xs <;> simp

theorem splitOnChar_of_not_mem (c : Char) (l : List Char) (h : c ∉ l) :
    splitOnChar c l = [l] := by
  induction l with
  | nil => rfl
  | cons x xs ih =>
    have hx : ¬ x = c := fun he => h (he ▸ List.mem_cons_self x xs)
    have hxs : c ∉ xs := fun hm => h (List.mem_cons_of_mem x hm)
    unfold splitOnChar
    dsimp only
    rw [if_neg hx, ih hxs]

theorem splitOnChar_append (c : Char) (a rest : List Char) (h : c ∉ a) :
    splitOnChar c (a ++ c :: rest) = a :: splitOnChar c rest := by
  induction a with
  | nil =>
    show splitOnChar c (c :: rest) = [] :: splitOnChar c rest
    conv_lhs => rw [splitOnChar]
    rw [if_pos rfl]
  | cons x xs ih =>
    have hx : ¬ x = c := fun he => h (he ▸ List.mem_cons_self x xs)
    have hxs : c ∉ xs := fun hm => h (List.mem_cons_of_mem x hm)
    show splitOnChar c (x :: (xs ++ c :: rest)) = (x :: xs) :: splitOnChar c rest
    conv_lhs => rw [splitOnChar]
    rw [if_neg hx, ih hxs]

theorem joinWithChar_splitOnChar (c : Char) (l : List Char) :
    joinWithChar c (splitOnChar c l) = l := by
  induction l with
  | nil => rfl
  | cons x xs ih =>
    conv_lhs => rw [splitOnChar]
    by_cases h : x = c
    · rw [if_pos h]
      cases hr : splitOnChar c xs with
      | nil => exact absurd hr (splitOnChar_ne_nil c xs)
      | cons p ps =>
        rw [hr] at ih
        rw [h]
        calc joinWithChar c ([] :: p :: ps) = c :: joinWithChar c (p :: ps) := rfl
          _ = c :: xs := by rw [ih]
    · rw [if_neg h]
      cases hr : splitOnChar c xs with
      | nil => exact absurd hr (splitOnChar_ne_nil c xs)
      | cons p ps =>
        rw [hr] at ih
        cases ps with
        | nil =>
          calc joinWithChar c [x :: p] = x :: p := rfl
            _ = x :: xs := by rw [show p = xs from ih]
        | cons q qs =>
          calc joinWithChar c ((x :: p) :: q :: qs)
              = x :: joinWithChar c (p :: q :: qs) := rfl
            _ = x :: xs := by rw [ih]

theorem digit_ne_dash (ch : Char) (h : isDigitChar ch = true) : ch ≠ '-' := by
  intro he
  rw [he] at h
  exact absurd h (by decide)

/-- Counterexample for C10: `'2024-1-1'` is not in zero-padded ISO
`YYYY-MM-DD` format yet parses (strptime `%m`/`%d` accept single digits),
while `'1500-06-15'` is a perfectly valid ISO date string yet fails to parse
(outside the pandas `Timestamp` nanosecond range). -/
theorem c10_counterexample_iso_iff_fails :
    parseYMD "2024-1-1" = some (2024, 1, 1)
    ∧ isStrictISO "2024-1-1" = false
    ∧ parseYMD "1500-06-15" = none
    ∧ isStrictISO "1500-06-15" = true := by
  exact ⟨by decide, by decide, by decide, by decide⟩

/-- Claim C10 as amended: a date string parses exactly when it decomposes as
four year digits, a dash, one or two month digits, a dash, and one or two day
digits, denoting an existing calendar date (month 1..12, day within the month,
year at least 1) inside the pandas `Timestamp` range; in particular
zero-padding is not required, and a string containing no dash at all — such as
any `MM/DD/YYYY` rendering — never parses. -/
theorem c10_amended_parse_characterization :
    (∀ s : String, (∃ v, parseYMD s = some v) ↔
      ∃ ys ms ds : List Char,
        s.data = ys ++ '-' :: (ms ++ '-' :: ds)
        ∧ ys.all isDigitChar = true ∧ ms.all isDigitChar = true ∧ ds.all isDigitChar = true
        ∧ ys.length = 4
        ∧ (1 ≤ ms.length ∧ ms.length ≤ 2)
        ∧ (1 ≤ ds.length ∧ ds.length ≤ 2)
        ∧ 1 ≤ natOfDigits ys
        ∧ (1 ≤ natOfDigits ms ∧ natOfDigits ms ≤ 12)
        ∧ (1 ≤ natOfDigits ds
            ∧ natOfDigits ds ≤ daysInMonth (natOfDigits ys) (natOfDigits ms))
        ∧ inTimestampBounds (natOfDigits ys) (natOfDigits ms) (natOfDigits ds) = true)
    ∧ parseYMD "12/31/2024" = none := by
  refine ⟨?_, by decide⟩
  intro s
  constructor
  · rintro ⟨v, hv⟩
    unfold parseYMD at hv
    cases e : splitOnChar '-' s.data with
    | nil => rw [e] at hv; cases hv
    | cons ys r1 =>
      cases r1 with
      | nil => rw [e] at hv; cases hv
      | cons ms r2 =>
        cases r2 with
        | nil => rw [e] at hv; cases hv
        | cons ds r3 =>
          cases r3 with
          | cons e4 r4 => rw [e] at hv; cases hv
          | nil =>
            rw [e] at hv
            dsimp only at hv
            split_ifs at hv with hA hB
            simp only [Bool.and_eq_true, decide_eq_true_eq] at hA hB
            obtain ⟨⟨⟨⟨⟨⟨⟨hlen4, hysall⟩, hms1⟩, hms2⟩, hmsall⟩, hds1⟩, hds2⟩, hdsall⟩ := hA
            obtain ⟨⟨⟨⟨⟨hy1, hm1⟩, hm12⟩, hd1⟩, hdmon⟩, hbound⟩ := hB
            have hjoin := joinWithChar_splitOnChar '-' s.data
            rw [e] at hjoin
            refine ⟨ys, ms, ds, ?_, hysall, hmsall, hdsall, hlen4, ⟨hms1, hms2⟩,
              ⟨hds1, hds2⟩, hy1, ⟨hm1, hm12⟩, ⟨hd1, hdmon⟩, hbound⟩
            rw [← hjoin]
            rfl
  · rintro ⟨ys, ms, ds, hdec, hys, hms, hds, hyl, hml, hdl, hy1, hm, hd, hbound⟩
    have hysd : '-' ∉ ys := fun hm2 =>
      digit_ne_dash '-' (by rw [List.all_eq_true] at hys; exact hys '-' hm2) rfl
    have hmsd : '-' ∉ ms := fun hm2 =>
      digit_ne_dash '-' (by rw [List.all_eq_true] at hms; exact hms '-' hm2) rfl
    have hdsd : '-' ∉ ds := fun hm2 =>
      digit_ne_dash '-' (by rw [List.all_eq_true] at hds; exact hds '-' hm2) rfl
    have e : splitOnChar '-' s.data = [ys, ms, ds] := by
      rw [hdec, splitOnChar_append '-' ys _ hysd, splitOnChar_append '-' ms _ hmsd,
        splitOnChar_of_not_mem '-' ds hdsd]
    refine ⟨(natOfDigits ys, natOfDigits ms, natOfDigits ds), ?_⟩
    unfold parseYMD
    rw [e]
    dsimp only
    split_ifs with h1 h2
    · rfl
    · exact absurd (by
        simp only [Bool.and_eq_true, decide_eq_true_eq]
        exact ⟨⟨⟨⟨⟨hy1, hm.1⟩, hm.2⟩, hd.1⟩, hd.2⟩, hbound⟩) h2
    · exact absurd (by
        simp only [Bool.and_eq_true, decide_eq_true_eq]
        exact ⟨⟨⟨⟨⟨⟨⟨hyl, hys⟩, hml.1⟩, hml.2⟩, hms⟩, hdl.1⟩, hdl.2⟩, hds⟩) h1
